import Mathlib

/-!
# Verification of the Telegram video-compressor bot (`bot.py`)

Shallow embedding of the bot's job pipeline. The pure inspection helpers
(`get_video_from_message`, the ffmpeg command template of `compress_video`)
are translated directly; the effectful pipeline `compress_command` is
embedded as a function from the incoming message and an environment
(outcomes of external collaborators: the encoder exit status, the file
sizes on disk, the delivery transport) to the trace of collaborator calls
it issues, in order. File sizes are kept in bytes: the Python code divides
`st_size` by `1024 * 1024` (an exact power-of-two float division) before
comparing, so its comparisons coincide with integer comparisons on bytes
against scaled thresholds.
-/

namespace TgBot

/-- A Telegram video attachment, restricted to the fields the bot reads. -/
structure Video where
  file_name : Option String
deriving DecidableEq

/-- A Telegram document attachment, restricted to the fields the bot reads. -/
structure Document where
  mime_type : Option String
  file_name : Option String
deriving DecidableEq

/-- A Telegram message as the bot inspects it: an identity plus optional media. -/
structure BaseMessage where
  msgId : Nat
  video : Option Video
  document : Option Document
deriving DecidableEq

/-- The command message together with its optional reply target
(`message.reply_to_message`). -/
structure Message where
  base : BaseMessage
  reply_to_message : Option BaseMessage
deriving DecidableEq

/-- The media object returned by the locator: either a plain video or a
document whose mime type declares video content. -/
inductive MediaObj where
  | video (v : Video)
  | document (d : Document)
deriving DecidableEq

/-- Python's `str.startswith`: does `pre` occur as a prefix of `s`?
Computed on the strings' character lists. -/
def startswith (s pre : String) : Bool :=
  pre.data.isPrefixOf s.data

/-- `get_video_from_message` from `bot.py`: returns `(file_obj, file_name)`
when the message contains a video (as a video attachment, or as a document
whose `mime_type` is present and starts with `"video/"`), and `(None, None)`
otherwise. The filename falls back to `"input.mp4"` when absent. -/
def get_video_from_message (message : BaseMessage) : Option MediaObj × Option String :=
  match message.video with
  | some v => (some (MediaObj.video v), some (v.file_name.getD "input.mp4"))
  | none =>
    match message.document with
    | some d =>
      match d.mime_type with
      | some mt =>
        if startswith mt "video/" then
          (some (MediaObj.document d), some (d.file_name.getD "input.mp4"))
        else
          (none, none)
      | none => (none, none)
    | none => (none, none)

/-- The exception `subprocess.run(..., check=True)` raises on a non-zero
exit status. -/
structure CalledProcessError where
  returncode : Int
deriving DecidableEq

/-- The fixed ffmpeg argument list built inside `compress_video`. -/
def ffmpeg_cmd (input_path output_path : String) : List String :=
  ["ffmpeg", "-y", "-i", input_path, "-vf", "scale=-2:720", "-c:v", "libx264",
   "-crf", "29", "-preset", "slow", "-c:a", "aac", output_path]

/-- `compress_video` from `bot.py`: one synchronous invocation of the
external encoder. Returns the argument list handed to `subprocess.run`
together with the `check=True` outcome for the given exit status: success
exactly when the process exits with status 0, otherwise a
`CalledProcessError`. No retry, no inspection of stderr. -/
def compress_video (input_path output_path : String) (exitCode : Int) :
    List String × Except CalledProcessError Unit :=
  (ffmpeg_cmd input_path output_path,
   if exitCode = 0 then Except.ok () else Except.error ⟨exitCode⟩)

/-- The transport-layer exception hierarchy the bot handles: `TimedOut` and
`BadRequest` are subclasses of `TelegramError`, so an `except TelegramError`
clause catches them all. -/
inductive TelegramError where
  | badRequest (description : String)
  | timedOut
  | other (description : String)
deriving DecidableEq

/-- Outcome of one transport-level `msg.delete()` call as seen by the
caller: it either succeeds, raises some `TelegramError` (in particular a
`BadRequest` when the message was already removed), or raises an exception
outside the Telegram hierarchy. -/
inductive PyOutcome where
  | ok
  | telegramError (e : TelegramError)
  | otherException (name : String)
deriving DecidableEq

/-- What a `delete_later` task does after its sleep: return normally
(possibly after logging a caught `TelegramError`) or let an exception
escape. -/
inductive DeleteLaterResult where
  | returned (logged : Option TelegramError)
  | raised (name : String)
deriving DecidableEq

/-- `delete_later` from `bot.py`: sleeps, then attempts `msg.delete()`
inside `try ... except TelegramError`, printing the caught error. Only a
`TelegramError` is caught; any other exception escapes the task. -/
def delete_later (deleteOutcome : PyOutcome) (_delay : Nat) : DeleteLaterResult :=
  match deleteOutcome with
  | PyOutcome.ok => DeleteLaterResult.returned none
  | PyOutcome.telegramError e => DeleteLaterResult.returned (some e)
  | PyOutcome.otherException n => DeleteLaterResult.raised n

/-- Identifies which of the bot's ephemeral status/error messages an event
concerns; each kind is posted at most once per job. -/
inductive MsgKind where
  | usageHelp
  | processing
  | encodeError
  | oversizeWarning
  | noReduction
  | timeoutError
deriving DecidableEq

/-- One collaborator call issued by `compress_command`, in program order. -/
inductive Event where
  | postEphemeral (k : MsgKind)
  | scheduleDelete (k : MsgKind) (delay : Nat)
  | deleteEphemeral (k : MsgKind)
  | deleteRequestMsg
  | createWorkspace
  | downloadInput
  | runEncoder
  | removeWorkspace
  | replyVideo (targetId : Nat)
deriving DecidableEq

/-- Outcome of the `compress_video` call as seen by `compress_command`:
clean exit, the anticipated `CalledProcessError`, or any other exception
(which the `except subprocess.CalledProcessError` clause does not catch). -/
inductive EncodeOutcome where
  | ok
  | calledProcessError
  | otherException
deriving DecidableEq

/-- Outcome of the `source_msg.reply_video` call: success, the anticipated
`TimedOut`, or any other exception (not caught; the `finally` still runs). -/
inductive DeliverOutcome where
  | ok
  | timedOut
  | otherException
deriving DecidableEq

/-- The external world a single job runs against: the encoder outcome, the
two on-disk file sizes in bytes, and the delivery outcome. -/
structure Env where
  encode : EncodeOutcome
  original_size : Nat
  compressed_size : Nat
  deliver : DeliverOutcome
deriving DecidableEq

/-- Result of running one job: the ordered trace of collaborator calls, and
whether an unhandled exception propagates out of the handler. -/
structure RunResult where
  trace : List Event
  raised : Bool
deriving DecidableEq

/-- One megabyte in bytes, the divisor used for the size computations. -/
def MB : Nat := 1024 * 1024

/-- The input-resolution prologue of `compress_command`: try the command
message itself, then (only if it yielded nothing and a reply target exists)
the replied-to message, which then also becomes `source_msg`. Returns the
located media object, the suggested filename, and `source_msg`. -/
def resolveSource (message : Message) : Option MediaObj × Option String × BaseMessage :=
  let r := get_video_from_message message.base
  match r.1, message.reply_to_message with
  | none, some rep =>
    let r2 := get_video_from_message rep
    (r2.1, r2.2, rep)
  | _, _ => (r.1, r.2, message.base)

/-- `compress_command` from `bot.py`, as the trace of collaborator calls it
issues against a given environment.

* No media located: post the usage help, spawn `delete_later` on it with
  delay 10, delete the request message, return.
* Otherwise: post the processing message, enter the
  `tempfile.TemporaryDirectory()` scope (workspace creation), download.
* Encoder raises `CalledProcessError`: post the encode-error message and
  `return` — the `with` scope removes the workspace, but the
  `try/finally` cleanup further down is never entered. Any other encoder
  exception propagates (workspace still removed by the `with` scope).
* Encoder succeeds: compute sizes; post the oversize warning when the
  compressed size exceeds 45 MB; on `original_size <= compressed_size`
  post the no-reduction message, spawn `delete_later` on it, delete the
  processing, request and (if posted) warning messages, return.
* Otherwise deliver by `source_msg.reply_video`; on `TimedOut` post the
  timeout error and spawn `delete_later` on it; the `finally` block then
  deletes the processing, request and (if posted) warning messages, and
  the `with` scope removes the workspace. -/
def compress_command (message : Message) (env : Env) : RunResult :=
  let resolved := resolveSource message
  match resolved.1 with
  | none =>
    ⟨[Event.postEphemeral MsgKind.usageHelp,
      Event.scheduleDelete MsgKind.usageHelp 10,
      Event.deleteRequestMsg], false⟩
  | some _ =>
    let source_msg := resolved.2.2
    let pre : List Event :=
      [Event.postEphemeral MsgKind.processing, Event.createWorkspace,
       Event.downloadInput, Event.runEncoder]
    match env.encode with
    | EncodeOutcome.calledProcessError =>
      ⟨pre ++ [Event.postEphemeral MsgKind.encodeError, Event.removeWorkspace], false⟩
    | EncodeOutcome.otherException =>
      ⟨pre ++ [Event.removeWorkspace], true⟩
    | EncodeOutcome.ok =>
      let warned : Bool := decide (45 * MB < env.compressed_size)
      let warnPost : List Event :=
        if warned then [Event.postEphemeral MsgKind.oversizeWarning] else []
      let warnDel : List Event :=
        if warned then [Event.deleteEphemeral MsgKind.oversizeWarning] else []
      if env.original_size ≤ env.compressed_size then
        ⟨pre ++ warnPost ++
          [Event.postEphemeral MsgKind.noReduction,
           Event.scheduleDelete MsgKind.noReduction 10,
           Event.deleteEphemeral MsgKind.processing,
           Event.deleteRequestMsg] ++ warnDel ++
          [Event.removeWorkspace], false⟩
      else
        let cleanup : List Event :=
          [Event.deleteEphemeral MsgKind.processing, Event.deleteRequestMsg] ++ warnDel
        match env.deliver with
        | DeliverOutcome.ok =>
          ⟨pre ++ warnPost ++ [Event.replyVideo source_msg.msgId] ++
            cleanup ++ [Event.removeWorkspace], false⟩
        | DeliverOutcome.timedOut =>
          ⟨pre ++ warnPost ++
            [Event.replyVideo source_msg.msgId,
             Event.postEphemeral MsgKind.timeoutError,
             Event.scheduleDelete MsgKind.timeoutError 10] ++
            cleanup ++ [Event.removeWorkspace], false⟩
        | DeliverOutcome.otherException =>
          ⟨pre ++ warnPost ++ [Event.replyVideo source_msg.msgId] ++
            cleanup ++ [Event.removeWorkspace], true⟩

/-- The kinds of ephemeral messages posted along a trace, in order. -/
def postedKinds (t : List Event) : List MsgKind :=
  t.filterMap fun e =>
    match e with
    | Event.postEphemeral k => some k
    | _ => none

/-- How many deletions a trace performs for a given ephemeral message:
immediate `delete()` calls plus scheduled `delete_later` tasks. -/
def deletionCount (k : MsgKind) (t : List Event) : Nat :=
  (t.filter fun e =>
    match e with
    | Event.deleteEphemeral k2 => decide (k2 = k)
    | Event.scheduleDelete k2 _ => decide (k2 = k)
    | _ => false).length

/-- Whether the job's workspace directory still exists after a trace has
run: created by `createWorkspace`, destroyed by `removeWorkspace`. -/
def wsAlive (t : List Event) : Bool :=
  t.foldl (fun alive e =>
    match e with
    | Event.createWorkspace => true
    | Event.removeWorkspace => false
    | _ => alive) false

/-- How many times a trace invokes the external encoder. -/
def countRunEncoder (t : List Event) : Nat :=
  (t.filter fun e =>
    match e with
    | Event.runEncoder => true
    | _ => false).length

/-! ## Concrete inputs used by counterexamples and witnesses -/

/-- A command message that itself carries a video attachment. -/
def msgWithVideo : Message :=
  { base := { msgId := 1, video := some { file_name := some "clip.mp4" }, document := none },
    reply_to_message := none }

/-- A command message with no media of its own whose reply target carries a
video. -/
def msgReplyVideo : Message :=
  { base := { msgId := 5, video := none, document := none },
    reply_to_message := some { msgId := 9, video := some { file_name := none }, document := none } }

/-- A bare command message: no media, no reply target. -/
def msgBare : Message :=
  { base := { msgId := 3, video := none, document := none },
    reply_to_message := none }

/-- Environment where the encoder raises `CalledProcessError`. -/
def envEncodeFail : Env :=
  ⟨EncodeOutcome.calledProcessError, 100 * MB, 0, DeliverOutcome.ok⟩

/-- Environment: encoder succeeds, 100 MB shrinks to 60 MB, delivery ok. -/
def envShrink60 : Env :=
  ⟨EncodeOutcome.ok, 100 * MB, 60 * MB, DeliverOutcome.ok⟩

/-- Environment: encoder succeeds, 10 MB grows to 11 MB, delivery ok. -/
def envGrow : Env :=
  ⟨EncodeOutcome.ok, 10 * MB, 11 * MB, DeliverOutcome.ok⟩

/-- Environment: encoder succeeds, 100 MB shrinks to 30 MB, delivery ok. -/
def envShrink30 : Env :=
  ⟨EncodeOutcome.ok, 100 * MB, 30 * MB, DeliverOutcome.ok⟩

/-- A video attachment with no declared filename. -/
def vidNoName : Video := { file_name := none }

/-- A document declaring a video mime type. -/
def docVideoMp4 : Document := { mime_type := some "video/mp4", file_name := some "clip.mp4" }

/-- A document with a video-looking filename but no declared mime type. -/
def docNoMime : Document := { mime_type := none, file_name := some "film.mp4" }

/-- A message carrying a plain video attachment. -/
def baseVid : BaseMessage := { msgId := 2, video := some vidNoName, document := none }

/-- A message carrying a video-typed document. -/
def baseDocVid : BaseMessage := { msgId := 4, video := none, document := some docVideoMp4 }

/-- A message carrying a document without a mime type. -/
def baseDocNoMime : BaseMessage := { msgId := 6, video := none, document := some docNoMime }

/-- The reply target inside `msgReplyVideo`. -/
def repBase : BaseMessage := { msgId := 9, video := some { file_name := none }, document := none }

/-- A document with a declared mime type that is not a video type. -/
def docPdf : Document := { mime_type := some "application/pdf", file_name := some "doc.pdf" }

/-- A message carrying a document whose mime type is present but not
`"video/..."`. -/
def baseDocPdf : BaseMessage := { msgId := 8, video := none, document := some docPdf }

/-! ## Claims -/

/-- C3: For every job, the temporary workspace directory created for the job
no longer exists once the job ends, on every exit path (success,
no-reduction rejection, encode failure, delivery timeout, or an exception
during encode or delivery): after the trace of any run, the workspace is
not alive. -/
theorem C3_workspace_reclaimed (message : Message) (env : Env) :
    wsAlive (compress_command message env).trace = false := by
  rcases env with ⟨enc, osz, csz, dlv⟩
  rcases hr : resolveSource message with ⟨mo, fn, src⟩
  cases mo <;> cases enc <;> cases dlv <;>
    cases hw : decide (45 * MB < csz) <;>
    simp only [compress_command, hr, hw] <;> (try split) <;>
    simp [wsAlive]

/-- C1 counterexample: with a video-carrying command message and an encoder
that raises `CalledProcessError`, the job posts the processing message and
the encode-error message, yet performs zero deletions of either — the early
`return` skips the aggregate cleanup, so "every ephemeral message is deleted
exactly once" and "aggregate cleanup still deletes the processing message"
both fail on this run. -/
theorem C1_counterexample_encode_failure :
    MsgKind.processing ∈ postedKinds (compress_command msgWithVideo envEncodeFail).trace ∧
    MsgKind.encodeError ∈ postedKinds (compress_command msgWithVideo envEncodeFail).trace ∧
    deletionCount MsgKind.processing (compress_command msgWithVideo envEncodeFail).trace = 0 ∧
    deletionCount MsgKind.encodeError (compress_command msgWithVideo envEncodeFail).trace = 0 := by
  decide

/-- C1 (amended): provided the encoder exits cleanly, every ephemeral
status/error message posted during the job is deleted (immediately or by a
scheduled `delete_later` task) exactly once; on `EncodeFailure` the job
instead posts the error message and returns before the cleanup block, so
the processing-status message is never deleted. -/
theorem C1_amended_cleanup (message : Message) (env : Env)
    (henc : env.encode = EncodeOutcome.ok) :
    ∀ k ∈ postedKinds (compress_command message env).trace,
      deletionCount k (compress_command message env).trace = 1 := by
  rcases env with ⟨enc, osz, csz, dlv⟩
  obtain rfl : enc = EncodeOutcome.ok := henc
  rcases hr : resolveSource message with ⟨mo, fn, src⟩
  cases mo <;> cases dlv <;>
    cases hw : decide (45 * MB < csz) <;>
    simp only [compress_command, hr, hw] <;> (try split) <;>
    · intro k hk
      cases k <;> simp_all [postedKinds, deletionCount]

/-- Witness for the amended C1 theorem at a concrete successful run. -/
theorem C1_amended_cleanup_witness :
    envShrink30.encode = EncodeOutcome.ok ∧
    ∀ k ∈ postedKinds (compress_command msgWithVideo envShrink30).trace,
      deletionCount k (compress_command msgWithVideo envShrink30).trace = 1 :=
  ⟨rfl, C1_amended_cleanup msgWithVideo envShrink30 rfl⟩

/-- C6: when neither the command message nor its reply target yields a
usable video, the job's whole trace is: post the usage-help message,
schedule its deletion after 10 seconds, delete the request message — and in
particular no workspace is ever created. -/
theorem C6_no_input_short_circuit (message : Message) (env : Env)
    (h : (resolveSource message).1 = none) :
    (compress_command message env).trace =
      [Event.postEphemeral MsgKind.usageHelp,
       Event.scheduleDelete MsgKind.usageHelp 10,
       Event.deleteRequestMsg] ∧
    Event.createWorkspace ∉ (compress_command message env).trace := by
  rcases hr : resolveSource message with ⟨mo, fn, src⟩
  rw [hr] at h
  obtain rfl : mo = none := h
  constructor
  · simp [compress_command, hr]
  · simp [compress_command, hr]

/-- Witness for C6 at a bare command message. -/
theorem C6_no_input_short_circuit_witness :
    (resolveSource msgBare).1 = none ∧
    ((compress_command msgBare envShrink30).trace =
      [Event.postEphemeral MsgKind.usageHelp,
       Event.scheduleDelete MsgKind.usageHelp 10,
       Event.deleteRequestMsg] ∧
     Event.createWorkspace ∉ (compress_command msgBare envShrink30).trace) :=
  ⟨rfl, C6_no_input_short_circuit msgBare envShrink30 rfl⟩

/-- C2: for every job reaching outcome evaluation (media located, encoder
succeeded) with compressed size ≥ original size, no video delivery occurs,
the explanatory message is posted and scheduled for deletion after 10
seconds, and the job goes directly to cleanup: the processing message is
deleted and the workspace removed, the compressed result never delivered. -/
theorem C2_no_reduction_discard (message : Message) (env : Env)
    (henc : env.encode = EncodeOutcome.ok)
    (hres : (resolveSource message).1 ≠ none)
    (hsz : env.original_size ≤ env.compressed_size) :
    (∀ tid, Event.replyVideo tid ∉ (compress_command message env).trace) ∧
    Event.postEphemeral MsgKind.noReduction ∈ (compress_command message env).trace ∧
    Event.scheduleDelete MsgKind.noReduction 10 ∈ (compress_command message env).trace ∧
    Event.deleteEphemeral MsgKind.processing ∈ (compress_command message env).trace ∧
    Event.removeWorkspace ∈ (compress_command message env).trace := by
  rcases env with ⟨enc, osz, csz, dlv⟩
  obtain rfl : enc = EncodeOutcome.ok := henc
  have hsz' : osz ≤ csz := hsz
  rcases hr : resolveSource message with ⟨mo, fn, src⟩
  rw [hr] at hres
  cases mo
  · exact absurd rfl hres
  · cases hw : decide (45 * MB < csz) <;>
      simp [compress_command, hr, hw, hsz']

/-- Witness for C2 at a run where 10 MB "compresses" to 11 MB. -/
theorem C2_no_reduction_discard_witness :
    envGrow.encode = EncodeOutcome.ok ∧
    (resolveSource msgWithVideo).1 ≠ none ∧
    envGrow.original_size ≤ envGrow.compressed_size ∧
    ((∀ tid, Event.replyVideo tid ∉ (compress_command msgWithVideo envGrow).trace) ∧
     Event.postEphemeral MsgKind.noReduction ∈ (compress_command msgWithVideo envGrow).trace ∧
     Event.scheduleDelete MsgKind.noReduction 10 ∈ (compress_command msgWithVideo envGrow).trace ∧
     Event.deleteEphemeral MsgKind.processing ∈ (compress_command msgWithVideo envGrow).trace ∧
     Event.removeWorkspace ∈ (compress_command msgWithVideo envGrow).trace) :=
  ⟨rfl, by decide, by decide,
   C2_no_reduction_discard msgWithVideo envGrow rfl (by decide) (by decide)⟩

/-- C7: for every job reaching outcome evaluation whose compressed size
exceeds 45 MB, the advisory warning is posted and later deleted during
cleanup, and the job does not abort: whenever the size was in fact reduced,
delivery is still attempted (on every delivery outcome). -/
theorem C7_oversize_warning_nonblocking (message : Message) (env : Env)
    (henc : env.encode = EncodeOutcome.ok)
    (hres : (resolveSource message).1 ≠ none)
    (hbig : 45 * MB < env.compressed_size) :
    Event.postEphemeral MsgKind.oversizeWarning ∈ (compress_command message env).trace ∧
    Event.deleteEphemeral MsgKind.oversizeWarning ∈ (compress_command message env).trace ∧
    (env.compressed_size < env.original_size →
      Event.replyVideo (resolveSource message).2.2.msgId ∈ (compress_command message env).trace) := by
  rcases env with ⟨enc, osz, csz, dlv⟩
  obtain rfl : enc = EncodeOutcome.ok := henc
  rcases hr : resolveSource message with ⟨mo, fn, src⟩
  rw [hr] at hres
  cases mo
  · exact absurd rfl hres
  · have hw : decide (45 * MB < csz) = true := decide_eq_true hbig
    rcases le_or_lt osz csz with hle | hlt
    · refine ⟨?_, ?_, fun hcs => absurd hle (Nat.not_le.mpr hcs)⟩ <;>
        simp [compress_command, hr, hw, hle]
    · have hnle : ¬ osz ≤ csz := Nat.not_le.mpr hlt
      cases dlv <;>
        refine ⟨?_, ?_, fun _ => ?_⟩ <;>
        simp [compress_command, hr, hw, hnle]

/-- Witness for C7 at a run where 100 MB compresses to 60 MB. -/
theorem C7_oversize_warning_nonblocking_witness :
    envShrink60.encode = EncodeOutcome.ok ∧
    (resolveSource msgReplyVideo).1 ≠ none ∧
    45 * MB < envShrink60.compressed_size ∧
    (Event.postEphemeral MsgKind.oversizeWarning ∈
        (compress_command msgReplyVideo envShrink60).trace ∧
     Event.deleteEphemeral MsgKind.oversizeWarning ∈
        (compress_command msgReplyVideo envShrink60).trace ∧
     (envShrink60.compressed_size < envShrink60.original_size →
       Event.replyVideo (resolveSource msgReplyVideo).2.2.msgId ∈
         (compress_command msgReplyVideo envShrink60).trace)) :=
  ⟨rfl, by decide, by decide,
   C7_oversize_warning_nonblocking msgReplyVideo envShrink60 rfl (by decide) (by decide)⟩

/-- C4: every delivered (or attempted) `reply_video` call targets the
resolved source message: the command message itself when it carries the
video, and the replied-to message when the video came from the reply
target. -/
theorem C4_delivery_reply_target (message : Message) (env : Env) (tid : Nat)
    (hmem : Event.replyVideo tid ∈ (compress_command message env).trace) :
    tid = (resolveSource message).2.2.msgId ∧
    ((get_video_from_message message.base).1 ≠ none → tid = message.base.msgId) ∧
    (∀ rep, message.reply_to_message = some rep →
      (get_video_from_message message.base).1 = none → tid = rep.msgId) := by
  have hsrc : tid = (resolveSource message).2.2.msgId := by
    rcases env with ⟨enc, osz, csz, dlv⟩
    rcases hr : resolveSource message with ⟨mo, fn, src⟩
    cases mo <;> cases enc <;> cases dlv <;>
      cases hw : decide (45 * MB < csz) <;>
      simp only [compress_command, hr, hw] at hmem <;> (try split at hmem) <;>
      simp_all
  refine ⟨hsrc, ?_, ?_⟩
  · intro hb
    rw [hsrc]
    rcases hg : (get_video_from_message message.base).1 with _ | x
    · exact absurd hg hb
    · simp [resolveSource, hg]
  · intro rep hrep hb
    rw [hsrc]
    simp [resolveSource, hb, hrep]

/-- Witness for C4 at a run whose video comes from the reply target
(message 9) rather than the command message (message 5). -/
theorem C4_delivery_reply_target_witness :
    Event.replyVideo 9 ∈ (compress_command msgReplyVideo envShrink30).trace ∧
    (9 = (resolveSource msgReplyVideo).2.2.msgId ∧
     ((get_video_from_message msgReplyVideo.base).1 ≠ none → 9 = msgReplyVideo.base.msgId) ∧
     (∀ rep, msgReplyVideo.reply_to_message = some rep →
       (get_video_from_message msgReplyVideo.base).1 = none → 9 = rep.msgId)) :=
  ⟨by decide, C4_delivery_reply_target msgReplyVideo envShrink30 9 (by decide)⟩

/-- C5: the media locator checks the video attachment first, then a
document whose declared mime type starts with `"video/"`; the resolution
prologue repeats the same locator on the reply target exactly when the
command message yields nothing; no media is found iff neither message
yields a usable asset; and the filename defaults to `"input.mp4"` when the
source provides none. -/
theorem C5_media_locator_order (m : BaseMessage) (message : Message) :
    (∀ v, m.video = some v →
      get_video_from_message m =
        (some (MediaObj.video v), some (v.file_name.getD "input.mp4"))) ∧
    (∀ d mt, m.video = none → m.document = some d → d.mime_type = some mt →
      startswith mt "video/" = true →
      get_video_from_message m =
        (some (MediaObj.document d), some (d.file_name.getD "input.mp4"))) ∧
    (∀ v, m.video = some v → v.file_name = none →
      (get_video_from_message m).2 = some "input.mp4") ∧
    (∀ rep, message.reply_to_message = some rep →
      (get_video_from_message message.base).1 = none →
      (resolveSource message).1 = (get_video_from_message rep).1) ∧
    ((resolveSource message).1 = none ↔
      ((get_video_from_message message.base).1 = none ∧
       ∀ rep, message.reply_to_message = some rep →
         (get_video_from_message rep).1 = none)) := by
  refine ⟨?_, ?_, ?_, ?_, ?_⟩
  · intro v hv
    simp [get_video_from_message, hv]
  · intro d mt hv hd hm hpre
    simp [get_video_from_message, hv, hd, hm, hpre]
  · intro v hv hn
    simp [get_video_from_message, hv, hn]
  · intro rep hrep hb
    simp [resolveSource, hrep, hb]
  · rcases hb : (get_video_from_message message.base).1 with _ | x <;>
      rcases hrep : message.reply_to_message with _ | rep <;>
      simp [resolveSource, hb, hrep]

/-- Witness for C5: a plain video with no filename, a video-typed document,
and a reply-target resolution, all at concrete messages. -/
theorem C5_media_locator_order_witness :
    get_video_from_message baseVid =
      (some (MediaObj.video vidNoName), some "input.mp4") ∧
    get_video_from_message baseDocVid =
      (some (MediaObj.document docVideoMp4), some "clip.mp4") ∧
    (get_video_from_message baseVid).2 = some "input.mp4" ∧
    (resolveSource msgReplyVideo).1 = (get_video_from_message repBase).1 :=
  ⟨(C5_media_locator_order baseVid msgBare).1 vidNoName rfl,
   (C5_media_locator_order baseDocVid msgBare).2.1 docVideoMp4 "video/mp4" rfl rfl rfl
     (by decide),
   (C5_media_locator_order baseVid msgBare).2.2.1 vidNoName rfl rfl,
   (C5_media_locator_order baseVid msgReplyVideo).2.2.2.1 repBase rfl rfl⟩

/-- C8: the transcoder hands `subprocess.run` the fixed ffmpeg argument
list (force overwrite, `scale=-2:720`, `libx264`, CRF 29, `slow`, `aac`),
signals failure exactly when the process exits non-zero, and the pipeline
invokes the encoder at most once per job (no retry). -/
theorem C8_fixed_encoder_template (input_path output_path : String) (exitCode : Int)
    (message : Message) (env : Env) :
    (compress_video input_path output_path exitCode).1 =
      ["ffmpeg", "-y", "-i", input_path, "-vf", "scale=-2:720", "-c:v", "libx264",
       "-crf", "29", "-preset", "slow", "-c:a", "aac", output_path] ∧
    ((∃ err : CalledProcessError,
        (compress_video input_path output_path exitCode).2 = Except.error err) ↔
      exitCode ≠ 0) ∧
    countRunEncoder (compress_command message env).trace ≤ 1 := by
  refine ⟨rfl, ?_, ?_⟩
  · rcases eq_or_ne exitCode 0 with h | h <;> simp [compress_video, h]
  · rcases env with ⟨enc, osz, csz, dlv⟩
    rcases hr : resolveSource message with ⟨mo, fn, src⟩
    cases mo <;> cases enc <;> cases dlv <;>
      cases hw : decide (45 * MB < csz) <;>
      simp only [compress_command, hr, hw] <;> (try split) <;>
      simp [countRunEncoder]

/-- C9: a `delete_later` task whose transport-level deletion fails with any
`TelegramError` — in particular the `BadRequest` raised for an
already-removed message — logs the error and returns; it never lets the
exception escape the task. -/
theorem C9_delete_later_swallows (e : TelegramError) (d : Nat) :
    delete_later (PyOutcome.telegramError e) d = DeleteLaterResult.returned (some e) ∧
    ∀ nm, delete_later (PyOutcome.telegramError e) d ≠ DeleteLaterResult.raised nm := by
  refine ⟨rfl, fun nm h => ?_⟩
  simp [delete_later] at h

/-- C10: a message with a document but no video is treated as video-bearing
only when the document's mime type is present and starts with `"video/"`:
an accepted document has a present, `"video/"`-prefixed mime type (mime
absent yields `(none, none)` regardless of filename, and a present but
non-`"video/"` mime type also yields `(none, none)`), and conversely such a
mime type is accepted. -/
theorem C10_document_mime_guard (m : BaseMessage) (d : Document)
    (hv : m.video = none) (hd : m.document = some d) :
    (d.mime_type = none → get_video_from_message m = (none, none)) ∧
    (∀ mt, d.mime_type = some mt → startswith mt "video/" = false →
      get_video_from_message m = (none, none)) ∧
    (∀ mt, d.mime_type = some mt → startswith mt "video/" = true →
      (get_video_from_message m).1 = some (MediaObj.document d)) := by
  refine ⟨?_, ?_, ?_⟩
  · intro hm
    simp [get_video_from_message, hv, hd, hm]
  · intro mt hm hpre
    simp [get_video_from_message, hv, hd, hm, hpre]
  · intro mt hm hpre
    simp [get_video_from_message, hv, hd, hm, hpre]

/-- Witness for C10: a document named `film.mp4` with no mime type yields
nothing; an `application/pdf` document yields nothing despite its present
mime type; a `video/mp4` document is accepted. -/
theorem C10_document_mime_guard_witness :
    get_video_from_message baseDocNoMime = (none, none) ∧
    get_video_from_message baseDocPdf = (none, none) ∧
    (get_video_from_message baseDocVid).1 = some (MediaObj.document docVideoMp4) :=
  ⟨(C10_document_mime_guard baseDocNoMime docNoMime rfl rfl).1 rfl,
   (C10_document_mime_guard baseDocPdf docPdf rfl rfl).2.1 "application/pdf" rfl (by decide),
   (C10_document_mime_guard baseDocVid docVideoMp4 rfl rfl).2.2 "video/mp4" rfl (by decide)⟩

end TgBot
